import Mathlib

/-!
Verification development for the milpa-cloud plugin coordinator.

The Go sources are embedded shallowly:
* pure helpers (`isAPIVersionCompatible`, `time.ParseDuration`) become Lean
  functions on `String`/`List Char`;
* the persistence gateway (`internal/infrastructure/db/repository.go`) becomes
  an explicit `GatewayState` record threaded through the operations, with the
  success/failure of each fallible gateway call passed in as a Boolean oracle
  (the Go code receives these outcomes as `error` return values);
* the event bus (`internal/core/event_bus.go`) becomes a record of bounded
  queues modelled as lists with explicit capacity checks mirroring Go's
  non-blocking `select`/`default` sends;
* clocks and random generators are effects, so `time.Now()` results and the
  generated session id / auth token are parameters of the embedded operations.

Timestamps are integers (nanoseconds); `t1.Before(t2)` is `t1 < t2`.
-/

namespace Milpa

/-- Embeds `entities.PluginDefinition` (internal/domain/entities/plugin.go).
GORM bookkeeping timestamps (`CreatedAt`/`UpdatedAt`) are not used by any
core operation and are omitted. -/
structure PluginDefinition where
  id : String
  version : String
  apiVersion : String
  dependsOn : List String
  capabilities : List String
  enabled : Bool
  metadata : List (String × String)
  deriving Repr, DecidableEq

/-- Embeds `entities.PluginInstance` (internal/domain/entities/plugin.go).
`LastHeartbeat *time.Time` is an `Option Int`; `Host`/`Port` and GORM
timestamps are unused by the core operations and omitted. -/
structure PluginInstance where
  id : String
  definitionId : String
  status : String
  enabled : Bool
  authToken : String
  lastHeartbeat : Option Int
  startedAt : Int
  metadata : List (String × String)
  deriving Repr, DecidableEq

/-- `entities.PluginStatusAvailable`. -/
def PluginStatusAvailable : String := "available"

/-- `entities.PluginStatusRunning`. -/
def PluginStatusRunning : String := "running"

/-- `entities.PluginStatusStopped`. -/
def PluginStatusStopped : String := "stopped"

/-- `entities.PluginStatusUnhealthy`. -/
def PluginStatusUnhealthy : String := "unhealthy"

/-! ### Version compatibility (manager.go, `isAPIVersionCompatible`) -/

/-- Embeds Go `strings.Split(s, ".")`: splits a character list at every `'.'`.
Like Go, the result always has at least one element. -/
def splitDot : List Char → List (List Char)
  | [] => [[]]
  | c :: rest =>
    if c = '.' then [] :: splitDot rest
    else
      match splitDot rest with
      | [] => [[c]]
      | g :: gs => (c :: g) :: gs

/-- `strings.Split(s, ".")[0]`: the segment before the first dot. -/
def majorOf (s : String) : List Char := (splitDot s.toList).headD []

/-- Embeds `isAPIVersionCompatible` (manager.go lines 300-304): the plugin and
core versions are compatible iff their pre-first-dot segments coincide. -/
def isAPIVersionCompatible (plugin core : String) : Bool :=
  majorOf plugin == majorOf core

/-- `splitDot` never returns the empty list (mirrors Go's guarantee that
`strings.Split` with a non-empty separator returns ≥ 1 element). -/
theorem splitDot_ne_nil (s : List Char) : splitDot s ≠ [] := by
  cases s with
  | nil => simp [splitDot]
  | cons c rest =>
    simp only [splitDot]
    by_cases h : c = '.'
    · simp [h]
    · simp only [h, if_false]
      cases splitDot rest <;> simp

/-- The head of `splitDot` is exactly the longest dot-free prefix. -/
theorem splitDot_head_eq_takeWhile (s : List Char) :
    (splitDot s).headD [] = s.takeWhile (fun c => decide (c ≠ '.')) := by
  induction s with
  | nil => simp [splitDot]
  | cons c rest ih =>
    by_cases h : c = '.'
    · simp [splitDot, h, List.takeWhile]
    · simp only [splitDot, h, if_false, List.takeWhile]
      cases hr : splitDot rest with
      | nil => exact absurd hr (splitDot_ne_nil rest)
      | cons g gs =>
        simp only [hr, List.headD] at ih ⊢
        simp [h, ih]

/-! ### Event bus (internal/core/event_bus.go) -/

/-- Embeds `core.PluginEvent` (an alias of `types.PluginEvent`): the payload
carried on the bus. The bus constructors in manager.go leave `SessionId`
at its zero value. -/
structure PluginEvent where
  sessionId : String
  type : String
  data : String
  deriving Repr, DecidableEq

/-- Capacity of each subscriber channel: `make(chan *PluginEvent, 50)` in
`EventBus.Subscribe`. -/
def subscriberCapacity : Nat := 50

/-- Capacity of the internal broadcast relay channel:
`make(chan *PluginEvent, 100)` in `NewEventBus`. -/
def relayCapacity : Nat := 100

/-- `ErrPluginNotFound` (event_bus.go). -/
def ErrPluginNotFound : String := "plugin_not_found"

/-- `ErrChannelFull` (event_bus.go). -/
def ErrChannelFull : String := "channel_full"

/-- Embeds `core.EventBusError`. -/
structure EventBusError where
  code : String
  message : String
  deriving Repr, DecidableEq

/-- Embeds `core.EventBus`: `subs` is the subscriber table
(instance id → buffered channel, modelled as the list of queued events in
send order), `relay` is the buffer of the internal `broadcast` channel. -/
structure EventBus where
  subs : List (String × List PluginEvent)
  relay : List PluginEvent
  deriving Repr, DecidableEq

/-- Go map read `eb.subs[instanceID]`. -/
def lookupSub : List (String × List PluginEvent) → String → Option (List PluginEvent)
  | [], _ => none
  | (k, q) :: rest, id => if k = id then some q else lookupSub rest id

/-- Go map write `eb.subs[instanceID] = ch`: replaces an existing mapping
(the old queue is abandoned) or appends a new one. -/
def setSub : List (String × List PluginEvent) → String → List PluginEvent →
    List (String × List PluginEvent)
  | [], id, q => [(id, q)]
  | (k, q0) :: rest, id, q =>
    if k = id then (id, q) :: rest else (k, q0) :: setSub rest id q

/-- Go map delete `delete(eb.subs, instanceID)`. -/
def removeSub : List (String × List PluginEvent) → String →
    List (String × List PluginEvent)
  | [], _ => []
  | (k, q) :: rest, id => if k = id then removeSub rest id else (k, q) :: removeSub rest id

/-- Embeds `NewEventBus`: empty subscriber table, empty relay buffer. -/
def NewEventBus : EventBus := { subs := [], relay := [] }

namespace EventBus

/-- Embeds `EventBus.Subscribe`: maps the id to a fresh empty capacity-50
queue, silently replacing any existing mapping. -/
def Subscribe (eb : EventBus) (instanceID : String) : EventBus :=
  { eb with subs := setSub eb.subs instanceID [] }

/-- Embeds `EventBus.Unsubscribe`: closes and removes the queue if present. -/
def Unsubscribe (eb : EventBus) (instanceID : String) : EventBus :=
  { eb with subs := removeSub eb.subs instanceID }

/-- Embeds `EventBus.SendDirect`. Returns the updated bus and the error, if
any (`none` = the Go call returned `nil`). A failing call returns the bus
unchanged: the Go code touches no state on either failure path. The
`select`/`default` non-blocking send succeeds iff the buffer has room. -/
def SendDirect (eb : EventBus) (instanceID : String) (event : PluginEvent) :
    EventBus × Option EventBusError :=
  match lookupSub eb.subs instanceID with
  | none =>
    (eb, some { code := ErrPluginNotFound, message := "plugin not found or not subscribed" })
  | some q =>
    if q.length < subscriberCapacity then
      ({ eb with subs := setSub eb.subs instanceID (q ++ [event]) }, none)
    else
      (eb, some { code := ErrChannelFull, message := "plugin event channel is full" })

/-- Embeds `EventBus.SendBroadcast`: snapshots the subscriber table and
attempts one non-blocking enqueue per subscriber, dropping on a full queue.
The fan-out happens here, in the calling goroutine; the relay buffer is not
touched — nothing in the code ever sends into `eb.broadcast`. -/
def SendBroadcast (eb : EventBus) (event : PluginEvent) : EventBus :=
  { eb with
    subs := eb.subs.map fun s =>
      (s.1, if s.2.length < subscriberCapacity then s.2 ++ [event] else s.2) }

/-- Embeds one iteration of the background worker spawned by
`EventBus.Start`: take the next event off the relay channel (if any) and
fan it out via `SendBroadcast`. -/
def relayStep (eb : EventBus) : EventBus :=
  match eb.relay with
  | [] => eb
  | e :: rest => SendBroadcast { eb with relay := rest } e

/-- Embeds `EventBus.Stop`: every subscriber queue and the relay channel are
closed and dropped. -/
def Stop (eb : EventBus) : EventBus :=
  { eb with subs := [], relay := [] }

end EventBus

/-! ### Go `time.ParseDuration`

The liveness sweep calls `time.ParseDuration` on the configured timeout
string and discards the error (`d, _ := time.ParseDuration(timeout)` in
manager.go line 271). The function below models the Go standard library's
grammar `[-+]?([0-9]*(\.[0-9]*)?unit)+` with units ns/us/µs/μs/ms/s/m/h,
returning nanoseconds; `none` models an error return, in which case the Go
caller is left with the zero value `d = 0`. Two simplifications, both
irrelevant at the durations a configuration string holds: int64 overflow is
not modelled, and the fractional part is computed in exact integer
arithmetic where Go rounds through float64. -/

/-- Consume leading decimal digits: accumulated value, count of digits
consumed, rest (Go `leadingInt`). -/
def leadingInt : Nat → Nat → List Char → Nat × Nat × List Char
  | acc, cnt, [] => (acc, cnt, [])
  | acc, cnt, c :: rest =>
    if c.isDigit then leadingInt (acc * 10 + (c.toNat - 48)) (cnt + 1) rest
    else (acc, cnt, c :: rest)

/-- Consume leading fraction digits: value, scale (10^digits), rest
(Go `leadingFraction`). -/
def leadingFraction : Nat → Nat → List Char → Nat × Nat × List Char
  | acc, scale, [] => (acc, scale, [])
  | acc, scale, c :: rest =>
    if c.isDigit then leadingFraction (acc * 10 + (c.toNat - 48)) (scale * 10) rest
    else (acc, scale, c :: rest)

/-- Go's `unitMap`: nanoseconds per unit suffix. -/
def unitNanos (u : List Char) : Option Nat :=
  if u = ['n', 's'] then some 1
  else if u = ['u', 's'] then some 1000
  else if u = ['µ', 's'] then some 1000
  else if u = ['μ', 's'] then some 1000
  else if u = ['m', 's'] then some 1000000
  else if u = ['s'] then some 1000000000
  else if u = ['m'] then some 60000000000
  else if u = ['h'] then some 3600000000000
  else none

/-- A character ends a unit token iff it is a digit or a dot. -/
def endsUnit (c : Char) : Bool := c.isDigit || c = '.'

/-- The repeated `number unit` segments of `ParseDuration`. Each iteration
consumes at least one character, so the fuel `length + 1` never runs out. -/
def durationLoop : Nat → List Char → Option Nat
  | 0, _ => none
  | _, [] => some 0
  | fuel + 1, c :: s0 =>
    if ¬(c.isDigit || c = '.') then none
    else
      let (v, pre, s1) := leadingInt 0 0 (c :: s0)
      let (f, scale, s2) :=
        match s1 with
        | '.' :: r => leadingFraction 0 1 r
        | _ => (0, 1, s1)
      let post := scale ≠ 1
      if pre = 0 ∧ ¬post then none
      else
        let u := s2.takeWhile (fun x => ¬endsUnit x)
        let s3 := s2.dropWhile (fun x => ¬endsUnit x)
        if u = [] then none
        else
          match unitNanos u with
          | none => none
          | some unit =>
            match durationLoop fuel s3 with
            | none => none
            | some rest => some (v * unit + f * unit / scale + rest)

/-- Models Go `time.ParseDuration`: `some d` is a successful parse into `d`
nanoseconds, `none` an error. -/
def parseDuration (s : String) : Option Int :=
  let l := s.toList
  let (neg, l1) :=
    match l with
    | '-' :: r => (true, r)
    | '+' :: r => (false, r)
    | r => (false, r)
  if l1 = ['0'] then some 0
  else if l1 = [] then none
  else
    match durationLoop (l1.length + 1) l1 with
    | none => none
    | some d => some (if neg then -(d : Int) else (d : Int))

/-! ### Persistence gateway (internal/infrastructure/db/repository.go)

The gateway is external storage; the core needs upsert/get for Definitions
and create/get/list/update for Instances. Rows live in lists keyed by the
entity `id` (the GORM primary key). Fallible gateway calls are modelled by
Boolean outcome parameters at each call site in the manager. -/

/-- The gateway's stored rows. -/
structure GatewayState where
  definitions : List PluginDefinition
  instances : List PluginInstance
  deriving Repr, DecidableEq

/-- Embeds `Repository.GetDefinition`: first row with the given id. -/
def getDefinition (st : GatewayState) (id : String) : Option PluginDefinition :=
  st.definitions.find? (fun d => d.id == id)

/-- Embeds `Repository.UpsertDefinition`
(`Where("id = ?").Assign(*def).FirstOrCreate`): replace the row with this id
wholesale, or create it. -/
def UpsertDefinition (st : GatewayState) (d : PluginDefinition) : GatewayState :=
  if st.definitions.any (fun x => x.id == d.id) then
    { st with definitions := st.definitions.map fun x => if x.id = d.id then d else x }
  else
    { st with definitions := st.definitions ++ [d] }

/-- Embeds `Repository.GetInstance`: first row with the given id. -/
def getInstance (st : GatewayState) (id : String) : Option PluginInstance :=
  st.instances.find? (fun i => i.id == id)

/-- Embeds `Repository.CreateInstance`: inserts the row. -/
def CreateInstance (st : GatewayState) (inst : PluginInstance) : GatewayState :=
  { st with instances := st.instances ++ [inst] }

/-- Embeds `Repository.UpdateInstance` (GORM `Save` by primary key) for a row
already present — every core caller saves back an instance it just fetched
or listed from the gateway. -/
def UpdateInstance (st : GatewayState) (inst : PluginInstance) : GatewayState :=
  { st with instances := st.instances.map fun x => if x.id = inst.id then inst else x }

/-! ### Plugin manager (internal/core/manager.go) -/

/-- Event type constant `EventTypeShutdown`. -/
def EventTypeShutdown : String := "shutdown"

/-- Event type constant `EventTypePluginConnected`. -/
def EventTypePluginConnected : String := "plugin_connected"

/-- Event type constant `EventTypePluginDisconnected`. -/
def EventTypePluginDisconnected : String := "plugin_disconnected"

/-- Embeds `config.SecurityConfig` (the configuration the manager reads). -/
structure SecurityConfig where
  enabled : Bool
  allowedPlugins : List String
  pluginToken : String
  heartbeatTimeout : String
  deriving Repr, DecidableEq

/-- Embeds `types.HandshakeRequest` (aliased into package core). -/
structure HandshakeRequest where
  pluginId : String
  version : String
  apiVersion : String
  capabilities : List String
  metadata : List (String × String)
  token : String
  deriving Repr, DecidableEq

/-- Embeds `types.HandshakeResponse`. -/
structure HandshakeResponse where
  accepted : Bool
  sessionId : String
  coreVersion : String
  config : List (String × String)
  error : String
  authToken : String
  deriving Repr, DecidableEq

/-- A rejection response `&HandshakeResponse{Accepted: false, Error: msg}`:
all other fields keep their Go zero values. -/
def rejectResp (msg : String) : HandshakeResponse :=
  { accepted := false, sessionId := "", coreVersion := "", config := [],
    error := msg, authToken := "" }

/-- Embeds the allow-list membership loop of `Handshake`
(manager.go lines 106-112): scan `AllowedPlugins` for the plugin id. -/
def containsPlugin : List String → String → Bool
  | [], _ => false
  | p :: rest, id => if p = id then true else containsPlugin rest id

/-- Result of one handshake execution: the wire response plus the updated
gateway and event bus. -/
structure HandshakeResult where
  resp : HandshakeResponse
  gateway : GatewayState
  bus : EventBus
  deriving Repr, DecidableEq

/-- The `entities.PluginDefinition` the handshake builds from the request
(manager.go lines 132-139): `DependsOn` is left empty ("TODO: Parse from
request"), `Enabled` is unconditionally reset to true, `Metadata` is not
set (Go zero value). -/
def hsDef (req : HandshakeRequest) : PluginDefinition :=
  { id := req.pluginId, version := req.version, apiVersion := req.apiVersion,
    dependsOn := [], capabilities := req.capabilities, enabled := true,
    metadata := [] }

/-- The `entities.PluginInstance` the handshake builds (manager.go lines
148-157): id = the fresh session id, definition_id = the plugin id,
status=running, enabled=true, last_heartbeat=now. -/
def hsInst (req : HandshakeRequest) (sessionID authToken : String) (now : Int) :
    PluginInstance :=
  { id := sessionID, definitionId := req.pluginId,
    status := PluginStatusRunning, enabled := true, authToken := authToken,
    lastHeartbeat := some now, startedAt := now, metadata := req.metadata }

/-- The acceptance response (manager.go lines 175-181). -/
def acceptResp (sessionID authToken : String) : HandshakeResponse :=
  { accepted := true, sessionId := sessionID, coreVersion := "1.0.0",
    config := [], error := "", authToken := authToken }

/-- Embeds `PluginManager.Handshake` (manager.go lines 95-182); the logic of
`PluginManager.HandshakeHTTP` (lines 425-514) is identical. Effect inputs:
`sessionID`/`authToken` are the freshly generated identifiers, `now` the
clock reading, `upsertOk`/`createOk` the outcomes of the two gateway calls.
A failed Definition upsert is logged and execution continues
("Continue anyway - instance can still be created"); a failed Instance
creation rejects the handshake with "internal error". On success a
`plugin_connected` broadcast is sent on the bus. -/
def Handshake (cfg : SecurityConfig) (req : HandshakeRequest)
    (sessionID authToken : String) (now : Int)
    (upsertOk createOk : Bool) (st : GatewayState) (eb : EventBus) :
    HandshakeResult :=
  if cfg.enabled ∧ req.token ≠ cfg.pluginToken then
    { resp := rejectResp "invalid token", gateway := st, bus := eb }
  else if cfg.enabled ∧ containsPlugin cfg.allowedPlugins req.pluginId = false then
    { resp := rejectResp "plugin not allowed", gateway := st, bus := eb }
  else if isAPIVersionCompatible req.apiVersion "1.0" = false then
    { resp := rejectResp "incompatible API version", gateway := st, bus := eb }
  else
    let st1 := if upsertOk then UpsertDefinition st (hsDef req) else st
    if createOk then
      { resp := acceptResp sessionID authToken,
        gateway := CreateInstance st1 (hsInst req sessionID authToken now),
        bus := eb.SendBroadcast
          { sessionId := "", type := EventTypePluginConnected, data := req.pluginId } }
    else
      { resp := rejectResp "internal error", gateway := st1, bus := eb }

/-- Embeds `types.HeartbeatRequest`. -/
structure HeartbeatRequest where
  sessionId : String
  authToken : String
  status : List (String × String)
  deriving Repr, DecidableEq

/-- Embeds `types.HeartbeatResponse`. -/
structure HeartbeatResponse where
  ok : Bool
  message : String
  deriving Repr, DecidableEq

/-- Embeds `PluginManager.Heartbeat` (manager.go lines 186-210); the logic of
`PluginManager.HeartbeatHTTP` (lines 517-536) is identical. `now` is the
clock reading, `updateOk` the outcome of the `UpdateInstance` gateway call
(whose error is only logged — the response is `ok=true` either way). -/
def Heartbeat (req : HeartbeatRequest) (now : Int) (updateOk : Bool)
    (st : GatewayState) : HeartbeatResponse × GatewayState :=
  match getInstance st req.sessionId with
  | none => ({ ok := false, message := "session not found" }, st)
  | some inst =>
    if inst.authToken ≠ req.authToken then
      ({ ok := false, message := "invalid auth token" }, st)
    else
      let inst2 := { inst with lastHeartbeat := some now, status := PluginStatusRunning }
      ({ ok := true, message := "ok" }, if updateOk then UpdateInstance st inst2 else st)

/-- Embeds `PluginManager.SetInstanceEnabled` (manager.go lines 352-369).
Returns whether the call succeeded (the Go `error` was nil) with the updated
gateway and bus. Disabling also sets status=stopped and sends a shutdown
event directly to the instance's queue. -/
def SetInstanceEnabled (id : String) (enabled : Bool) (updateOk : Bool)
    (st : GatewayState) (eb : EventBus) : Bool × GatewayState × EventBus :=
  match getInstance st id with
  | none => (false, st, eb)
  | some inst =>
    let inst2 :=
      if enabled = false then
        { inst with enabled := false, status := PluginStatusStopped }
      else
        { inst with enabled := true }
    let eb2 :=
      if enabled = false then
        (eb.SendDirect id
          { sessionId := "", type := EventTypeShutdown, data := "instance disabled" }).1
      else eb
    (updateOk, (if updateOk then UpdateInstance st inst2 else st), eb2)

/-- `inst.LastHeartbeat == nil || inst.LastHeartbeat.Before(cutoff)`
(manager.go line 278). -/
def staleAt (inst : PluginInstance) (cutoff : Int) : Bool :=
  match inst.lastHeartbeat with
  | none => true
  | some h => decide (h < cutoff)

/-- The status demotion the sweep writes back. -/
def demote (inst : PluginInstance) : PluginInstance :=
  { inst with status := PluginStatusUnhealthy }

/-- The per-instance loop of `checkHeartbeats` (manager.go lines 274-285):
iterate the listed snapshot, skip non-running instances, demote stale ones;
a failed `UpdateInstance` is logged and the loop continues. -/
def sweep (cutoff : Int) (updateOk : String → Bool) :
    List PluginInstance → GatewayState → GatewayState
  | [], st => st
  | inst :: rest, st =>
    if inst.status ≠ PluginStatusRunning then sweep cutoff updateOk rest st
    else if staleAt inst cutoff then
      sweep cutoff updateOk rest
        (if updateOk inst.id then UpdateInstance st (demote inst) else st)
    else sweep cutoff updateOk rest st

/-- `timeout := cfg.Security.HeartbeatTimeout; if timeout == "" { timeout = "30s" }`
(manager.go lines 259-262). -/
def effectiveTimeout (t : String) : String := if t = "" then "30s" else t

/-- Embeds `PluginManager.checkHeartbeats` (manager.go lines 258-286).
`listOk` is the outcome of `ListInstances` (on failure the sweep returns
with no changes); `updateOk` gives the outcome of each per-instance
`UpdateInstance`. The parse error of `time.ParseDuration` is discarded, so
an unparsable timeout leaves `d = 0` and `cutoff = now`. -/
def checkHeartbeats (cfg : SecurityConfig) (now : Int) (listOk : Bool)
    (updateOk : String → Bool) (st : GatewayState) : GatewayState :=
  if listOk = false then st
  else
    let d := (parseDuration (effectiveTimeout cfg.heartbeatTimeout)).getD 0
    sweep (now - d) updateOk st.instances st

/-- Embeds the broadcast issued by `PluginManager.Stop` (manager.go lines
72-79): a shutdown broadcast followed by `EventBus.Stop`. -/
def ManagerStop (eb : EventBus) : EventBus :=
  (eb.SendBroadcast
    { sessionId := "", type := EventTypeShutdown, data := "system shutting down" }).Stop

/-! ### Client session agent (pkg/sdk, `Plugin.Start`)

`Plugin.Start` makes its single handshake call through the transport; the
call's outcome (a transport error, or a decoded response) is an effect and
enters the model as a parameter. The spawned goroutines are recorded as
Booleans on the agent state. -/

/-- What the one `p.client.Handshake(ctx, …)` call in `Plugin.Start` came
back with: a transport/decoding error, or a decoded response. -/
inductive HandshakeOutcome where
  | transportError (msg : String)
  | reply (resp : HandshakeResponse)
  deriving Repr, DecidableEq

/-- The observable state of an `sdk.Plugin`: the stored session credentials
(`p.client.SessionID` / `p.client.AuthToken`) and which background loops
have been spawned (`go p.heartbeatLoop()` / `go p.eventLoop()`). -/
structure AgentState where
  sessionID : String
  authToken : String
  heartbeatLoopRunning : Bool
  eventLoopRunning : Bool
  deriving Repr, DecidableEq

/-- The agent as `sdk.NewPlugin` returns it: no credentials, no loops. -/
def agentInit : AgentState :=
  { sessionID := "", authToken := "", heartbeatLoopRunning := false,
    eventLoopRunning := false }

/-- The spec's `Disconnected` agent state: no background loop spawned. -/
def Disconnected (ag : AgentState) : Prop :=
  ag.heartbeatLoopRunning = false ∧ ag.eventLoopRunning = false

/-- Result of `Plugin.Start`: the Go `error` return, the agent state after
the call, and how many handshake calls the execution performed. -/
structure StartResult where
  err : Option String
  agent : AgentState
  handshakeCalls : Nat
  deriving Repr, DecidableEq

/-- Embeds `Plugin.Start` (pkg/sdk). It first overwrites `p.client` with a
fresh `PluginClient` (credentials zeroed), then performs exactly one
handshake call. A transport error or a rejected response returns an error
with no loop spawned; on acceptance the credentials are stored, the
heartbeat loop is spawned, and the event loop is spawned only when an
`EventHandler` is configured. -/
def PluginStart (hasEventHandler : Bool) (outcome : HandshakeOutcome)
    (ag : AgentState) : StartResult :=
  let ag0 := { ag with sessionID := "", authToken := "" }
  match outcome with
  | .transportError msg => { err := some msg, agent := ag0, handshakeCalls := 1 }
  | .reply resp =>
    if resp.accepted = false then
      { err := some ("handshake rejected: " ++ resp.error), agent := ag0,
        handshakeCalls := 1 }
    else
      let ag1 : AgentState :=
        { ag0 with sessionID := resp.sessionId, authToken := resp.authToken,
                   heartbeatLoopRunning := true, eventLoopRunning := hasEventHandler }
      { err := none, agent := ag1, handshakeCalls := 1 }

/-! ## Helper lemmas -/

/-- Removing a key makes it unresolvable. -/
theorem lookupSub_removeSub_self (subs : List (String × List PluginEvent)) (id : String) :
    lookupSub (removeSub subs id) id = none := by
  induction subs with
  | nil => rfl
  | cons kv rest ih =>
    obtain ⟨k, q⟩ := kv
    by_cases h : k = id
    · simp [removeSub, h, ih]
    · simp [removeSub, lookupSub, h, ih]

/-- A write is visible to a subsequent read of the same key. -/
theorem lookupSub_setSub_self (subs : List (String × List PluginEvent))
    (id : String) (q : List PluginEvent) :
    lookupSub (setSub subs id q) id = some q := by
  induction subs with
  | nil => simp [setSub, lookupSub]
  | cons kv rest ih =>
    obtain ⟨k, q0⟩ := kv
    by_cases h : k = id
    · simp [setSub, h, lookupSub]
    · simp [setSub, lookupSub, h, ih]

/-- Overwriting a key twice keeps only the second write. -/
theorem setSub_setSub (subs : List (String × List PluginEvent))
    (id : String) (q1 q2 : List PluginEvent) :
    setSub (setSub subs id q1) id q2 = setSub subs id q2 := by
  induction subs with
  | nil => simp [setSub]
  | cons kv rest ih =>
    obtain ⟨k, q0⟩ := kv
    by_cases h : k = id
    · simp [setSub, h]
    · simp [setSub, h, ih]

/-- Writing back the value a key already resolves to is a no-op. -/
theorem setSub_of_lookup_eq (subs : List (String × List PluginEvent))
    (id : String) (q : List PluginEvent) (h : lookupSub subs id = some q) :
    setSub subs id q = subs := by
  induction subs with
  | nil => simp [lookupSub] at h
  | cons kv rest ih =>
    obtain ⟨k, q0⟩ := kv
    by_cases hk : k = id
    · simp [lookupSub, hk] at h
      simp [setSub, hk, h]
    · simp [lookupSub, hk] at h
      simp [setSub, hk, ih h]

/-- A `find?` hit implies the found row matches the key. -/
theorem getInstance_id (st : GatewayState) (id : String) (inst : PluginInstance)
    (h : getInstance st id = some inst) : inst.id = id := by
  have := List.find?_some h
  exact eq_of_beq this

/-- `UpdateInstance` with a row whose id resolves makes the new row the one
that resolves afterwards. -/
theorem find?_replace_list (l : List PluginInstance) (id : String)
    (v : PluginInstance) (hv : v.id = id)
    (h : (l.find? (fun i => i.id == id)).isSome) :
    (l.map fun x => if x.id = v.id then v else x).find? (fun i => i.id == id) = some v := by
  induction l with
  | nil => simp [List.find?] at h
  | cons x rest ih =>
    by_cases hx : (x.id == id) = true
    · have hxid : x.id = id := eq_of_beq hx
      simp only [List.map_cons]
      rw [if_pos (by rw [hxid, hv])]
      simp [List.find?, hv]
    · simp only [List.find?_cons, hx, cond_false] at h
      simp only [List.map_cons]
      rw [if_neg (by rw [hv]; intro hc; rw [hc] at hx; simp at hx)]
      simp only [List.find?_cons, hx, cond_false]
      exact ih h

/-- `UpdateInstance` with a row whose id resolves makes the new row the one
that resolves afterwards. -/
theorem getInstance_update (st : GatewayState) (id : String)
    (inst v : PluginInstance) (hv : v.id = id)
    (h : getInstance st id = some inst) :
    getInstance (UpdateInstance st v) id = some v := by
  unfold getInstance at h ⊢
  unfold UpdateInstance
  exact find?_replace_list st.instances id v hv (by rw [h]; rfl)

/-- Complete case enumeration of one `Handshake` execution, with the guard
conditions that select each branch. -/
theorem handshake_cases (cfg : SecurityConfig) (req : HandshakeRequest)
    (sid tok : String) (now : Int) (uOk cOk : Bool)
    (st : GatewayState) (eb : EventBus) :
    ((cfg.enabled = true ∧ req.token ≠ cfg.pluginToken) ∧
      Handshake cfg req sid tok now uOk cOk st eb =
        { resp := rejectResp "invalid token", gateway := st, bus := eb }) ∨
    (¬(cfg.enabled = true ∧ req.token ≠ cfg.pluginToken) ∧
      (cfg.enabled = true ∧ containsPlugin cfg.allowedPlugins req.pluginId = false) ∧
      Handshake cfg req sid tok now uOk cOk st eb =
        { resp := rejectResp "plugin not allowed", gateway := st, bus := eb }) ∨
    (¬(cfg.enabled = true ∧ req.token ≠ cfg.pluginToken) ∧
      ¬(cfg.enabled = true ∧ containsPlugin cfg.allowedPlugins req.pluginId = false) ∧
      isAPIVersionCompatible req.apiVersion "1.0" = false ∧
      Handshake cfg req sid tok now uOk cOk st eb =
        { resp := rejectResp "incompatible API version", gateway := st, bus := eb }) ∨
    (¬(cfg.enabled = true ∧ req.token ≠ cfg.pluginToken) ∧
      ¬(cfg.enabled = true ∧ containsPlugin cfg.allowedPlugins req.pluginId = false) ∧
      ¬isAPIVersionCompatible req.apiVersion "1.0" = false ∧ cOk = false ∧
      Handshake cfg req sid tok now uOk cOk st eb =
        { resp := rejectResp "internal error",
          gateway := if uOk = true then UpsertDefinition st (hsDef req) else st,
          bus := eb }) ∨
    (¬(cfg.enabled = true ∧ req.token ≠ cfg.pluginToken) ∧
      ¬(cfg.enabled = true ∧ containsPlugin cfg.allowedPlugins req.pluginId = false) ∧
      ¬isAPIVersionCompatible req.apiVersion "1.0" = false ∧ cOk = true ∧
      Handshake cfg req sid tok now uOk cOk st eb =
        { resp := acceptResp sid tok,
          gateway := CreateInstance
            (if uOk = true then UpsertDefinition st (hsDef req) else st)
            (hsInst req sid tok now),
          bus := eb.SendBroadcast
            { sessionId := "", type := EventTypePluginConnected,
              data := req.pluginId } }) := by
  unfold Handshake
  by_cases g1 : cfg.enabled = true ∧ req.token ≠ cfg.pluginToken
  · rw [if_pos g1]
    exact Or.inl ⟨g1, rfl⟩
  · rw [if_neg g1]
    by_cases g2 : cfg.enabled = true ∧ containsPlugin cfg.allowedPlugins req.pluginId = false
    · rw [if_pos g2]
      exact Or.inr (Or.inl ⟨g1, g2, rfl⟩)
    · rw [if_neg g2]
      by_cases g3 : isAPIVersionCompatible req.apiVersion "1.0" = false
      · rw [if_pos g3]
        exact Or.inr (Or.inr (Or.inl ⟨g1, g2, g3, rfl⟩))
      · rw [if_neg g3]
        cases cOk
        · exact Or.inr (Or.inr (Or.inr (Or.inl ⟨g1, g2, g3, rfl, rfl⟩)))
        · exact Or.inr (Or.inr (Or.inr (Or.inr ⟨g1, g2, g3, rfl, rfl⟩)))

/-- After `UpsertDefinition st d`, the id `d.id` resolves. -/
theorem getDefinition_upsert_self (st : GatewayState) (d : PluginDefinition) :
    (getDefinition (UpsertDefinition st d) d.id).isSome := by
  unfold getDefinition UpsertDefinition
  by_cases h : st.definitions.any (fun x => x.id == d.id)
  · rw [if_pos h]
    simp only [List.any_eq_true] at h
    obtain ⟨x, hx, hxid⟩ := h
    have hxid' : x.id = d.id := eq_of_beq hxid
    rw [List.find?_isSome]
    exact ⟨d, List.mem_map.mpr ⟨x, hx, by simp [hxid']⟩, by simp⟩
  · rw [if_neg h]
    rw [List.find?_isSome]
    exact ⟨d, by simp, by simp⟩

/-! ## Claim C6 -/

/-- C6: `isAPIVersionCompatible plugin core` holds iff the substrings before
the first `.` are equal; the spec's five examples evaluate as stated; and a
handshake whose earlier security checks pass but whose declared api_version
is incompatible with the core's supported major version `"1.0"` returns
`accepted=false` with the version-incompatibility reason. -/
theorem api_version_compat_spec :
    (∀ p c : String, isAPIVersionCompatible p c = true ↔
      p.toList.takeWhile (fun ch => decide (ch ≠ '.')) =
        c.toList.takeWhile (fun ch => decide (ch ≠ '.'))) ∧
    isAPIVersionCompatible "1.0" "1.0" = true ∧
    isAPIVersionCompatible "1.1" "1.0" = true ∧
    isAPIVersionCompatible "1.0.0" "1.0" = true ∧
    isAPIVersionCompatible "2.0" "1.0" = false ∧
    isAPIVersionCompatible "1.0" "2.0" = false ∧
    (∀ (cfg : SecurityConfig) (req : HandshakeRequest) (sid tok : String)
      (now : Int) (uOk cOk : Bool) (st : GatewayState) (eb : EventBus),
      (cfg.enabled = true →
        req.token = cfg.pluginToken ∧
          containsPlugin cfg.allowedPlugins req.pluginId = true) →
      isAPIVersionCompatible req.apiVersion "1.0" = false →
      (Handshake cfg req sid tok now uOk cOk st eb).resp =
        rejectResp "incompatible API version") := by
  refine ⟨?_, by decide, by decide, by decide, by decide, by decide, ?_⟩
  · intro p c
    unfold isAPIVersionCompatible majorOf
    rw [splitDot_head_eq_takeWhile, splitDot_head_eq_takeWhile]
    exact beq_iff_eq
  · intro cfg req sid tok now uOk cOk st eb hsec hver
    unfold Handshake
    rw [if_neg (fun h => h.2 ((hsec h.1).1))]
    rw [if_neg (fun h => by rw [(hsec h.1).2] at h; exact absurd h.2 (by simp))]
    rw [if_pos hver]

/-- Witness for C6's handshake conjunct at concrete inputs: security
disabled, api_version `"2.0"` against core `"1.0"`. -/
theorem api_version_compat_spec_witness :
    (Handshake
      { enabled := false, allowedPlugins := [], pluginToken := "", heartbeatTimeout := "" }
      { pluginId := "p", version := "2.0.0", apiVersion := "2.0", capabilities := [],
        metadata := [], token := "" }
      "sess-1" "tok-1" 0 true true { definitions := [], instances := [] }
      NewEventBus).resp = rejectResp "incompatible API version" :=
  api_version_compat_spec.2.2.2.2.2.2
    { enabled := false, allowedPlugins := [], pluginToken := "", heartbeatTimeout := "" }
    { pluginId := "p", version := "2.0.0", apiVersion := "2.0", capabilities := [],
      metadata := [], token := "" }
    "sess-1" "tok-1" 0 true true { definitions := [], instances := [] }
    NewEventBus (fun h => by cases h) (by decide)

/-! ## Claim C2 -/

/-- C2 counterexample: security enabled, matching token, compatible version,
and an EMPTY allow-list — the handshake is rejected with "plugin not
allowed", while the claim states that an empty allow-list rejects no plugin
id. (With security disabled, a configured non-empty allow-list is never
consulted either, the other direction in which the claim fails.) -/
theorem handshake_empty_allowlist_rejects :
    (Handshake
      { enabled := true, allowedPlugins := [], pluginToken := "sec", heartbeatTimeout := "" }
      { pluginId := "p", version := "1.0.0", apiVersion := "1.0", capabilities := [],
        metadata := [], token := "sec" }
      "sess-1" "tok-1" 0 true true { definitions := [], instances := [] }
      NewEventBus).resp = rejectResp "plugin not allowed" := by decide

/-- C2 (amended): the allow-list check runs only when security is enabled
and the shared token matched; then the handshake is rejected with "plugin
not allowed" exactly when the plugin id does not appear in
`AllowedPlugins` — in particular an empty or absent list rejects every
plugin id. With security disabled no allow-list rejection ever occurs. -/
theorem handshake_allowlist_check :
    ∀ (cfg : SecurityConfig) (req : HandshakeRequest) (sid tok : String)
      (now : Int) (uOk cOk : Bool) (st : GatewayState) (eb : EventBus),
      (cfg.enabled = true → req.token = cfg.pluginToken →
        ((Handshake cfg req sid tok now uOk cOk st eb).resp =
            rejectResp "plugin not allowed" ↔
          containsPlugin cfg.allowedPlugins req.pluginId = false)) ∧
      (cfg.enabled = false →
        (Handshake cfg req sid tok now uOk cOk st eb).resp ≠
          rejectResp "plugin not allowed") := by
  intro cfg req sid tok now uOk cOk st eb
  rcases handshake_cases cfg req sid tok now uOk cOk st eb with
    ⟨⟨hen, hne⟩, _⟩ | ⟨_, g2, heq⟩ | ⟨_, g2, _, heq⟩ | ⟨_, g2, _, _, heq⟩ | ⟨_, g2, _, _, heq⟩
  · exact ⟨fun _ htok => absurd htok hne,
      fun he => by rw [he] at hen; exact absurd hen Bool.false_ne_true⟩
  · refine ⟨fun he htok => ?_,
      fun he => by rw [he] at g2; exact absurd g2.1 Bool.false_ne_true⟩
    rw [heq]
    simp [g2.2]
  · refine ⟨fun he htok => ?_, fun he => ?_⟩
    · have hcp : containsPlugin cfg.allowedPlugins req.pluginId = true := by
        rcases Bool.eq_false_or_eq_true (containsPlugin cfg.allowedPlugins req.pluginId) with ht | hf
        · exact ht
        · exact absurd ⟨he, hf⟩ g2
      rw [heq]
      simp [rejectResp, hcp]
    · rw [heq]
      simp [rejectResp]
  · refine ⟨fun he htok => ?_, fun he => ?_⟩
    · have hcp : containsPlugin cfg.allowedPlugins req.pluginId = true := by
        rcases Bool.eq_false_or_eq_true (containsPlugin cfg.allowedPlugins req.pluginId) with ht | hf
        · exact ht
        · exact absurd ⟨he, hf⟩ g2
      rw [heq]
      simp [rejectResp, hcp]
    · rw [heq]
      simp [rejectResp]
  · refine ⟨fun he htok => ?_, fun he => ?_⟩
    · have hcp : containsPlugin cfg.allowedPlugins req.pluginId = true := by
        rcases Bool.eq_false_or_eq_true (containsPlugin cfg.allowedPlugins req.pluginId) with ht | hf
        · exact ht
        · exact absurd ⟨he, hf⟩ g2
      rw [heq]
      simp [acceptResp, rejectResp, hcp]
    · rw [heq]
      simp [acceptResp, rejectResp]

/-- Witness for C2's amended theorem: security enabled, token "sec",
allow-list `["p"]`, plugin id "q" not in it — the iff yields the
rejection. -/
theorem handshake_allowlist_check_witness :
    (Handshake
      { enabled := true, allowedPlugins := ["p"], pluginToken := "sec", heartbeatTimeout := "" }
      { pluginId := "q", version := "1.0.0", apiVersion := "1.0", capabilities := [],
        metadata := [], token := "sec" }
      "sess-1" "tok-1" 0 true true { definitions := [], instances := [] }
      NewEventBus).resp = rejectResp "plugin not allowed" :=
  ((handshake_allowlist_check
    { enabled := true, allowedPlugins := ["p"], pluginToken := "sec", heartbeatTimeout := "" }
    { pluginId := "q", version := "1.0.0", apiVersion := "1.0", capabilities := [],
      metadata := [], token := "sec" }
    "sess-1" "tok-1" 0 true true { definitions := [], instances := [] }
    NewEventBus).1 rfl rfl).mpr (by decide)

/-! ## Claim C1 -/

/-- C1 counterexample: when the Definition upsert reports a gateway failure
the handshake continues ("Continue anyway - instance can still be created",
manager.go line 144) and creates the Instance; starting from an empty
gateway the accepted handshake leaves an Instance whose `definition_id`
resolves to no Definition. -/
theorem handshake_upsert_failure_dangling :
    let r := Handshake
      { enabled := false, allowedPlugins := [], pluginToken := "", heartbeatTimeout := "" }
      { pluginId := "p", version := "1.0.0", apiVersion := "1.0", capabilities := [],
        metadata := [], token := "" }
      "sess-1" "tok-1" 0 false true { definitions := [], instances := [] }
      NewEventBus
    r.resp.accepted = true ∧
    getInstance r.gateway "sess-1" =
      some { id := "sess-1", definitionId := "p", status := PluginStatusRunning,
             enabled := true, authToken := "tok-1", lastHeartbeat := some 0,
             startedAt := 0, metadata := [] } ∧
    getDefinition r.gateway "p" = none := by
  refine ⟨by decide, by decide, by decide⟩

/-- C1 (amended): whenever the Definition upsert succeeds, an accepted
handshake leaves the gateway holding the created Instance, and its
`definition_id` (the plugin id) resolves to a Definition; when the upsert
fails the Instance is still created and its reference may dangle. -/
theorem handshake_definition_resolves_of_upsert_ok :
    ∀ (cfg : SecurityConfig) (req : HandshakeRequest) (sid tok : String)
      (now : Int) (cOk : Bool) (st : GatewayState) (eb : EventBus),
      (Handshake cfg req sid tok now true cOk st eb).resp.accepted = true →
      ∃ inst, inst ∈ (Handshake cfg req sid tok now true cOk st eb).gateway.instances ∧
        inst.id = sid ∧ inst.definitionId = req.pluginId ∧
        (getDefinition (Handshake cfg req sid tok now true cOk st eb).gateway
          inst.definitionId).isSome := by
  intro cfg req sid tok now cOk st eb hacc
  rcases handshake_cases cfg req sid tok now true cOk st eb with
    ⟨_, heq⟩ | ⟨_, _, heq⟩ | ⟨_, _, _, heq⟩ | ⟨_, _, _, _, heq⟩ | ⟨_, _, _, _, heq⟩
  · rw [heq] at hacc
    exact absurd hacc (by simp [rejectResp])
  · rw [heq] at hacc
    exact absurd hacc (by simp [rejectResp])
  · rw [heq] at hacc
    exact absurd hacc (by simp [rejectResp])
  · rw [heq] at hacc
    exact absurd hacc (by simp [rejectResp])
  · rw [heq]
    refine ⟨hsInst req sid tok now, ?_, rfl, rfl, ?_⟩
    · show _ ∈ (CreateInstance _ _).instances
      unfold CreateInstance
      simp
    · show (getDefinition (CreateInstance (UpsertDefinition st (hsDef req)) _)
        (hsInst req sid tok now).definitionId).isSome
      have : (hsInst req sid tok now).definitionId = (hsDef req).id := rfl
      rw [this]
      exact getDefinition_upsert_self st (hsDef req)

/-- Witness for C1's amended theorem at concrete inputs. -/
theorem handshake_definition_resolves_witness :
    ∃ inst, inst ∈ (Handshake
      { enabled := false, allowedPlugins := [], pluginToken := "", heartbeatTimeout := "" }
      { pluginId := "p", version := "1.0.0", apiVersion := "1.0", capabilities := [],
        metadata := [], token := "" }
      "sess-1" "tok-1" 0 true true { definitions := [], instances := [] }
      NewEventBus).gateway.instances ∧
      inst.id = "sess-1" ∧ inst.definitionId = "p" ∧
      (getDefinition (Handshake
        { enabled := false, allowedPlugins := [], pluginToken := "", heartbeatTimeout := "" }
        { pluginId := "p", version := "1.0.0", apiVersion := "1.0", capabilities := [],
          metadata := [], token := "" }
        "sess-1" "tok-1" 0 true true { definitions := [], instances := [] }
        NewEventBus).gateway inst.definitionId).isSome :=
  handshake_definition_resolves_of_upsert_ok
    { enabled := false, allowedPlugins := [], pluginToken := "", heartbeatTimeout := "" }
    { pluginId := "p", version := "1.0.0", apiVersion := "1.0", capabilities := [],
      metadata := [], token := "" }
    "sess-1" "tok-1" 0 true { definitions := [], instances := [] }
    NewEventBus (by decide)

/-! ## Heartbeat helper lemmas -/

/-- Unknown session id: `ok=false`, gateway untouched. -/
theorem Heartbeat_not_found (req : HeartbeatRequest) (now : Int) (updOk : Bool)
    (st : GatewayState) (h : getInstance st req.sessionId = none) :
    Heartbeat req now updOk st = ({ ok := false, message := "session not found" }, st) := by
  simp only [Heartbeat, h]

/-- Wrong auth token: `ok=false`, gateway untouched. -/
theorem Heartbeat_bad_token (req : HeartbeatRequest) (now : Int) (updOk : Bool)
    (st : GatewayState) (inst : PluginInstance)
    (hsome : getInstance st req.sessionId = some inst)
    (hne : inst.authToken ≠ req.authToken) :
    Heartbeat req now updOk st = ({ ok := false, message := "invalid auth token" }, st) := by
  simp only [Heartbeat, hsome, if_pos hne]

/-- Matching token: the response is `ok=true` for every gateway outcome. -/
theorem Heartbeat_ok_resp (req : HeartbeatRequest) (now : Int) (updOk : Bool)
    (st : GatewayState) (inst : PluginInstance)
    (hsome : getInstance st req.sessionId = some inst)
    (htok : inst.authToken = req.authToken) :
    (Heartbeat req now updOk st).1 = { ok := true, message := "ok" } := by
  have hne : ¬(inst.authToken ≠ req.authToken) := fun h => h htok
  simp only [Heartbeat, hsome, if_neg hne]

/-- Matching token with a successful gateway update: the stored row becomes
the fetched instance with `last_heartbeat = now` and `status = running`. -/
theorem Heartbeat_ok_update (req : HeartbeatRequest) (now : Int)
    (st : GatewayState) (inst : PluginInstance)
    (hsome : getInstance st req.sessionId = some inst)
    (htok : inst.authToken = req.authToken) :
    getInstance (Heartbeat req now true st).2 req.sessionId =
      some { inst with lastHeartbeat := some now, status := PluginStatusRunning } := by
  have hid : inst.id = req.sessionId := getInstance_id st req.sessionId inst hsome
  have hne : ¬(inst.authToken ≠ req.authToken) := fun h => h htok
  simp only [Heartbeat, hsome, if_neg hne]
  exact getInstance_update st req.sessionId inst _ hid hsome

/-! ## Concrete fixtures used by witnesses and counterexamples -/

/-- A sample stored instance with a parameterized status and enabled flag. -/
def sampleInst (status : String) (enabled : Bool) : PluginInstance :=
  { id := "s1", definitionId := "p", status := status, enabled := enabled,
    authToken := "tok", lastHeartbeat := some 0, startedAt := 0, metadata := [] }

/-- A gateway holding exactly one sample instance. -/
def sampleGw (status : String) (enabled : Bool) : GatewayState :=
  { definitions := [], instances := [sampleInst status enabled] }

/-! ## Claim C4 -/

/-- C4: for every heartbeat request — no Instance under the session id gives
`ok=false`; an Instance whose stored auth token differs from the request's
gives `ok=false` with the gateway unchanged; a match gives `ok=true` and
(under a successful persistence) stores the Instance with
`last_heartbeat = now` and `status = running`. -/
theorem heartbeat_auth_and_update :
    ∀ (req : HeartbeatRequest) (now : Int) (updOk : Bool) (st : GatewayState),
      (getInstance st req.sessionId = none →
        Heartbeat req now updOk st = ({ ok := false, message := "session not found" }, st)) ∧
      (∀ inst, getInstance st req.sessionId = some inst →
        inst.authToken ≠ req.authToken →
        Heartbeat req now updOk st = ({ ok := false, message := "invalid auth token" }, st)) ∧
      (∀ inst, getInstance st req.sessionId = some inst →
        inst.authToken = req.authToken →
        (Heartbeat req now updOk st).1 = { ok := true, message := "ok" } ∧
        getInstance (Heartbeat req now true st).2 req.sessionId =
          some { inst with lastHeartbeat := some now, status := PluginStatusRunning }) := by
  intro req now updOk st
  refine ⟨Heartbeat_not_found req now updOk st,
    fun inst hsome hne => Heartbeat_bad_token req now updOk st inst hsome hne,
    fun inst hsome htok => ⟨Heartbeat_ok_resp req now updOk st inst hsome htok,
      Heartbeat_ok_update req now st inst hsome htok⟩⟩

/-- Witness for C4 at concrete inputs: a one-instance gateway, wrong token
then right token. -/
theorem heartbeat_auth_and_update_witness :
    (Heartbeat { sessionId := "s1", authToken := "bad", status := [] } 7 true
        (sampleGw "unhealthy" true) =
      ({ ok := false, message := "invalid auth token" }, sampleGw "unhealthy" true)) ∧
    getInstance (Heartbeat { sessionId := "s1", authToken := "tok", status := [] } 7 true
        (sampleGw "unhealthy" true)).2 "s1" =
      some { sampleInst "unhealthy" true with
              lastHeartbeat := some 7, status := PluginStatusRunning } := by
  constructor
  · exact (heartbeat_auth_and_update
      { sessionId := "s1", authToken := "bad", status := [] } 7 true
      (sampleGw "unhealthy" true)).2.1 (sampleInst "unhealthy" true)
      (by decide) (by decide)
  · exact ((heartbeat_auth_and_update
      { sessionId := "s1", authToken := "tok", status := [] } 7 true
      (sampleGw "unhealthy" true)).2.2 (sampleInst "unhealthy" true)
      (by decide) (by decide)).2

/-! ## Claim C10 -/

/-- C10: a valid heartbeat sets the Instance's status to running
unconditionally, whatever the previous status, and never touches `enabled`:
after `SetInstanceEnabled id false` stores the Instance with status=stopped
and enabled=false, the next valid heartbeat stores it with status=running,
`last_heartbeat = now`, and `enabled` still false. -/
theorem heartbeat_resurrects_disabled_instance :
    ∀ (st : GatewayState) (eb : EventBus) (id : String) (inst : PluginInstance)
      (now : Int),
      getInstance st id = some inst →
      getInstance (SetInstanceEnabled id false true st eb).2.1 id =
        some { inst with enabled := false, status := PluginStatusStopped } ∧
      (Heartbeat { sessionId := id, authToken := inst.authToken, status := [] }
        now true (SetInstanceEnabled id false true st eb).2.1).1 =
        { ok := true, message := "ok" } ∧
      getInstance (Heartbeat { sessionId := id, authToken := inst.authToken, status := [] }
        now true (SetInstanceEnabled id false true st eb).2.1).2 id =
        some { inst with enabled := false, status := PluginStatusRunning,
                         lastHeartbeat := some now } := by
  intro st eb id inst now hsome
  have hid : inst.id = id := getInstance_id st id inst hsome
  have hset : (SetInstanceEnabled id false true st eb).2.1 =
      UpdateInstance st { inst with enabled := false, status := PluginStatusStopped } := by
    simp only [SetInstanceEnabled, hsome, if_true]
  have hstored : getInstance (SetInstanceEnabled id false true st eb).2.1 id =
      some { inst with enabled := false, status := PluginStatusStopped } := by
    rw [hset]
    exact getInstance_update st id inst _ hid hsome
  refine ⟨hstored, ?_, ?_⟩
  · exact Heartbeat_ok_resp { sessionId := id, authToken := inst.authToken, status := [] }
      now true _ _ hstored rfl
  · exact Heartbeat_ok_update { sessionId := id, authToken := inst.authToken, status := [] }
      now _ _ hstored rfl

/-- Witness for C10 at concrete inputs. -/
theorem heartbeat_resurrects_disabled_witness :
    getInstance (Heartbeat { sessionId := "s1", authToken := "tok", status := [] }
      9 true (SetInstanceEnabled "s1" false true
        (sampleGw PluginStatusRunning true) NewEventBus).2.1).2 "s1" =
      some { sampleInst PluginStatusRunning true with
              enabled := false, status := PluginStatusRunning, lastHeartbeat := some 9 } :=
  (heartbeat_resurrects_disabled_instance (sampleGw PluginStatusRunning true)
    NewEventBus "s1" (sampleInst PluginStatusRunning true) 9 (by decide)).2.2

/-! ## Claim C7 -/

/-- `n` consecutive `SendDirect` calls for the same id and event, collecting
each call's error result in order. -/
def sendRepeat (id : String) (ev : PluginEvent) :
    Nat → EventBus → EventBus × List (Option EventBusError)
  | 0, eb => (eb, [])
  | n + 1, eb =>
    let r := EventBus.SendDirect eb id ev
    let rest := sendRepeat id ev n r.1
    (rest.1, r.2 :: rest.2)

/-- While the queue has room for all of them, `n` direct sends all succeed
and append `n` copies of the event. -/
theorem sendRepeat_ok (id : String) (ev : PluginEvent) :
    ∀ (n : Nat) (eb : EventBus) (q : List PluginEvent),
      lookupSub eb.subs id = some q → q.length + n ≤ subscriberCapacity →
      sendRepeat id ev n eb =
        ({ eb with subs := setSub eb.subs id (q ++ List.replicate n ev) },
         List.replicate n none) := by
  intro n
  induction n with
  | zero =>
    intro eb q hq _
    simp [sendRepeat, setSub_of_lookup_eq eb.subs id q hq]
  | succ n ih =>
    intro eb q hq hlen
    have hroom : q.length < subscriberCapacity := by omega
    have hsend : EventBus.SendDirect eb id ev =
        ({ eb with subs := setSub eb.subs id (q ++ [ev]) }, none) := by
      simp only [EventBus.SendDirect, hq, if_pos hroom]
    have hq1 : lookupSub (setSub eb.subs id (q ++ [ev])) id = some (q ++ [ev]) :=
      lookupSub_setSub_self eb.subs id (q ++ [ev])
    have hlen1 : (q ++ [ev]).length + n ≤ subscriberCapacity := by
      simp only [List.length_append, List.length_singleton]
      omega
    have hrec := ih { eb with subs := setSub eb.subs id (q ++ [ev]) } (q ++ [ev]) hq1 hlen1
    simp only [sendRepeat, hsend, hrec, setSub_setSub, List.append_assoc,
      List.singleton_append, List.replicate_succ]

/-- C7: `SendDirect` to an id with no mapped queue — never subscribed, or
subscribed then unsubscribed — fails with `plugin_not_found`; from a fresh
subscription whose capacity-50 queue is never drained, the first 50 sends
all succeed and the 51st fails with `channel_full`; and every failing call
leaves the bus (subscriber table and queues) exactly as it was. -/
theorem send_direct_error_behavior :
    ∀ (eb : EventBus) (id : String) (ev : PluginEvent),
      (lookupSub eb.subs id = none →
        EventBus.SendDirect eb id ev =
          (eb, some { code := ErrPluginNotFound,
                      message := "plugin not found or not subscribed" })) ∧
      (EventBus.SendDirect (EventBus.Unsubscribe (EventBus.Subscribe eb id) id) id ev =
        (EventBus.Unsubscribe (EventBus.Subscribe eb id) id,
         some { code := ErrPluginNotFound,
                message := "plugin not found or not subscribed" })) ∧
      ((sendRepeat id ev subscriberCapacity (EventBus.Subscribe eb id)).2 =
        List.replicate subscriberCapacity none) ∧
      (EventBus.SendDirect
          (sendRepeat id ev subscriberCapacity (EventBus.Subscribe eb id)).1 id ev =
        ((sendRepeat id ev subscriberCapacity (EventBus.Subscribe eb id)).1,
         some { code := ErrChannelFull,
                message := "plugin event channel is full" })) ∧
      (∀ e, (EventBus.SendDirect eb id ev).2 = some e →
        (EventBus.SendDirect eb id ev).1 = eb) := by
  intro eb id ev
  have hfull : sendRepeat id ev subscriberCapacity (EventBus.Subscribe eb id) =
      ({ EventBus.Subscribe eb id with
          subs := setSub (setSub eb.subs id []) id
            ([] ++ List.replicate subscriberCapacity ev) },
       List.replicate subscriberCapacity none) :=
    sendRepeat_ok id ev subscriberCapacity (EventBus.Subscribe eb id) []
      (lookupSub_setSub_self eb.subs id []) (by simp)
  refine ⟨?_, ?_, ?_, ?_, ?_⟩
  · intro h
    simp only [EventBus.SendDirect, h]
  · have h : lookupSub (removeSub (setSub eb.subs id []) id) id = none :=
      lookupSub_removeSub_self (setSub eb.subs id []) id
    simp only [EventBus.SendDirect, EventBus.Unsubscribe, EventBus.Subscribe, h]
  · rw [hfull]
  · rw [hfull]
    have hl : lookupSub (setSub (setSub eb.subs id []) id
        ([] ++ List.replicate subscriberCapacity ev)) id =
        some ([] ++ List.replicate subscriberCapacity ev) :=
      lookupSub_setSub_self (setSub eb.subs id []) id _
    simp only [EventBus.SendDirect, hl]
    rw [if_neg (by simp)]
  · intro e he
    rcases hl : lookupSub eb.subs id with _ | q
    · simp only [EventBus.SendDirect, hl]
    · simp only [EventBus.SendDirect, hl] at he ⊢
      by_cases hq : q.length < subscriberCapacity
      · rw [if_pos hq] at he
        cases he
      · rw [if_neg hq]

/-- Witness for C7 at concrete inputs: the empty bus and id "a". -/
theorem send_direct_error_behavior_witness :
    EventBus.SendDirect NewEventBus "a" { sessionId := "", type := "t", data := "d" } =
      (NewEventBus,
       some { code := ErrPluginNotFound,
              message := "plugin not found or not subscribed" }) :=
  (send_direct_error_behavior NewEventBus "a"
    { sessionId := "", type := "t", data := "d" }).1 rfl

/-! ## Claim C3 -/

/-- A security-disabled configuration. -/
def openCfg : SecurityConfig :=
  { enabled := false, allowedPlugins := [], pluginToken := "", heartbeatTimeout := "" }

/-- A well-formed handshake request for plugin "p". -/
def sampleReq : HandshakeRequest :=
  { pluginId := "p", version := "1.0.0", apiVersion := "1.0", capabilities := [],
    metadata := [], token := "" }

/-- Fan-out writes each subscriber queue with room; keys are untouched. -/
theorem lookupSub_broadcast (subs : List (String × List PluginEvent))
    (id : String) (q : List PluginEvent) (ev : PluginEvent)
    (h : lookupSub subs id = some q) :
    lookupSub (subs.map fun s =>
        (s.1, if s.2.length < subscriberCapacity then s.2 ++ [ev] else s.2)) id =
      some (if q.length < subscriberCapacity then q ++ [ev] else q) := by
  induction subs with
  | nil => simp [lookupSub] at h
  | cons kv rest ih =>
    obtain ⟨k, q0⟩ := kv
    by_cases hk : k = id
    · subst hk
      simp only [lookupSub, if_pos rfl] at h
      cases h
      simp [lookupSub]
    · simp only [lookupSub, hk, if_neg hk] at h
      simp only [List.map_cons, lookupSub, if_neg hk]
      exact ih h

/-- C3 counterexample: the `plugin_connected` broadcast issued by a
successful handshake is fanned out to the subscriber queues inside the
handshake call itself, and the capacity-100 relay channel stays empty — the
request is never enqueued into the relay, so the fan-out is not performed by
the background worker. -/
theorem broadcast_bypasses_relay_queue :
    (Handshake openCfg sampleReq "s1" "t1" 0 true true
      { definitions := [], instances := [] }
      (EventBus.Subscribe NewEventBus "a")).resp.accepted = true ∧
    (Handshake openCfg sampleReq "s1" "t1" 0 true true
      { definitions := [], instances := [] }
      (EventBus.Subscribe NewEventBus "a")).bus.relay = [] ∧
    lookupSub (Handshake openCfg sampleReq "s1" "t1" 0 true true
      { definitions := [], instances := [] }
      (EventBus.Subscribe NewEventBus "a")).bus.subs "a" =
      some [{ sessionId := "", type := EventTypePluginConnected, data := "p" }] := by
  refine ⟨by decide, by decide, by decide⟩

/-- C3 (amended): broadcast requests are fanned out synchronously in the
producing goroutine — `SendBroadcast` appends the event to every subscriber
queue with room and never touches the relay channel, whose buffer is
preserved by every broadcast (and in particular stays empty forever, since
no code path enqueues into it); the handshake's broadcast therefore leaves
the relay exactly as it found it, and `Stop` closes it still undrained. -/
theorem broadcast_synchronous_fanout :
    ∀ (eb : EventBus) (ev : PluginEvent),
      (EventBus.SendBroadcast eb ev).relay = eb.relay ∧
      (∀ id q, lookupSub eb.subs id = some q → q.length < subscriberCapacity →
        lookupSub (EventBus.SendBroadcast eb ev).subs id = some (q ++ [ev])) ∧
      (∀ cfg req sid tok now uOk cOk st,
        (Handshake cfg req sid tok now uOk cOk st eb).bus.relay = eb.relay) ∧
      (ManagerStop eb).relay = [] := by
  intro eb ev
  refine ⟨rfl, ?_, ?_, rfl⟩
  · intro id q hq hroom
    have := lookupSub_broadcast eb.subs id q ev hq
    rw [if_pos hroom] at this
    exact this
  · intro cfg req sid tok now uOk cOk st
    rcases handshake_cases cfg req sid tok now uOk cOk st eb with
      ⟨_, heq⟩ | ⟨_, _, heq⟩ | ⟨_, _, _, heq⟩ | ⟨_, _, _, _, heq⟩ | ⟨_, _, _, _, heq⟩ <;>
      simp [heq, EventBus.SendBroadcast]

/-- Witness for C3's amended theorem: one subscriber with an empty queue
receives the broadcast synchronously. -/
theorem broadcast_synchronous_fanout_witness :
    lookupSub (EventBus.SendBroadcast (EventBus.Subscribe NewEventBus "a")
      { sessionId := "", type := "t", data := "d" }).subs "a" =
      some ([] ++ [{ sessionId := "", type := "t", data := "d" }]) :=
  (broadcast_synchronous_fanout (EventBus.Subscribe NewEventBus "a")
    { sessionId := "", type := "t", data := "d" }).2.1 "a" [] (by decide) (by decide)

/-! ## Liveness sweep characterization (claims C5 and C9) -/

/-- Whether the sweep demotes this row and the per-row persistence call
succeeds: the row is running, its heartbeat is absent or strictly older
than the cutoff, and the gateway update goes through. -/
def demotes (cutoff : Int) (u : String → Bool) (i : PluginInstance) : Bool :=
  (i.status == PluginStatusRunning) && staleAt i cutoff && u i.id

/-- The per-row effect of a completed sweep over the snapshot `insts`. -/
def applyInsts (cutoff : Int) (u : String → Bool) (insts : List PluginInstance)
    (x : PluginInstance) : PluginInstance :=
  match insts.find? (fun i => i.id == x.id) with
  | some i => if demotes cutoff u i then demote i else x
  | none => x

/-- No row of `l` carries the id `s`. -/
theorem find?_id_eq_none (l : List PluginInstance) (s : String)
    (h : s ∉ l.map (fun i => i.id)) :
    l.find? (fun i => i.id == s) = none := by
  rw [List.find?_eq_none]
  intro x hx hps
  exact h (List.mem_map.mpr ⟨x, hx, eq_of_beq hps⟩)

/-- With distinct ids, looking up a member's id finds the member itself. -/
theorem find?_id_self (l : List PluginInstance)
    (hnd : (l.map (fun i => i.id)).Nodup) (x : PluginInstance) (hx : x ∈ l) :
    l.find? (fun i => i.id == x.id) = some x := by
  induction l with
  | nil => cases hx
  | cons y rest ih =>
    simp only [List.map_cons, List.nodup_cons] at hnd
    obtain ⟨hni, hnd'⟩ := hnd
    by_cases h : (y.id == x.id) = true
    · simp only [List.find?, h]
      rcases List.mem_cons.mp hx with rfl | hxr
      · rfl
      · exact absurd (List.mem_map.mpr ⟨x, hxr, (eq_of_beq h).symm⟩) hni
    · have hf : (y.id == x.id) = false := by
        rw [← Bool.not_eq_true]
        exact h
      simp only [List.find?, hf]
      rcases List.mem_cons.mp hx with rfl | hxr
      · exact absurd (by simp) h
      · exact ih hnd' hxr

theorem applyInsts_head (cutoff : Int) (u : String → Bool) (i : PluginInstance)
    (rest : List PluginInstance) (x : PluginInstance) (hx : i.id = x.id) :
    applyInsts cutoff u (i :: rest) x =
      if demotes cutoff u i then demote i else x := by
  unfold applyInsts
  rw [List.find?_cons_of_pos _ (by simp [hx])]

theorem applyInsts_tail (cutoff : Int) (u : String → Bool) (i : PluginInstance)
    (rest : List PluginInstance) (x : PluginInstance) (hx : ¬i.id = x.id) :
    applyInsts cutoff u (i :: rest) x = applyInsts cutoff u rest x := by
  unfold applyInsts
  rw [List.find?_cons_of_neg _ (by simp [hx])]

theorem applyInsts_not_mem (cutoff : Int) (u : String → Bool)
    (insts : List PluginInstance) (x : PluginInstance)
    (h : x.id ∉ insts.map (fun i => i.id)) :
    applyInsts cutoff u insts x = x := by
  unfold applyInsts
  rw [find?_id_eq_none insts x.id h]

/-- The sweep never touches the Definitions table. -/
theorem sweep_definitions (cutoff : Int) (u : String → Bool) :
    ∀ (insts : List PluginInstance) (st : GatewayState),
      (sweep cutoff u insts st).definitions = st.definitions := by
  intro insts
  induction insts with
  | nil => intro st; rfl
  | cons i rest ih =>
    intro st
    unfold sweep
    by_cases h1 : i.status ≠ PluginStatusRunning
    · rw [if_pos h1]; exact ih st
    · rw [if_neg h1]
      by_cases h2 : staleAt i cutoff = true
      · rw [if_pos h2, ih]
        by_cases h3 : u i.id = true
        · rw [if_pos h3]; rfl
        · rw [if_neg h3]
      · rw [if_neg h2]; exact ih st

/-- The sweep over a snapshot with distinct ids rewrites the stored rows by
`applyInsts`: each row found in the snapshot as running-and-stale (with a
successful persistence) becomes unhealthy, every other row is untouched,
and one row's persistence failure has no effect on the rest. -/
theorem sweep_eq_map (cutoff : Int) (u : String → Bool) :
    ∀ (insts : List PluginInstance) (st : GatewayState),
      (insts.map (fun i => i.id)).Nodup →
      (sweep cutoff u insts st).instances =
        st.instances.map (applyInsts cutoff u insts) := by
  intro insts
  induction insts with
  | nil =>
    intro st _
    have : st.instances.map (applyInsts cutoff u []) = st.instances.map (fun x => x) :=
      List.map_congr_left (fun x _ => applyInsts_not_mem cutoff u [] x (by simp))
    rw [this, List.map_id']
    rfl
  | cons i rest ih =>
    intro st hnd
    simp only [List.map_cons, List.nodup_cons] at hnd
    obtain ⟨hni, hnd'⟩ := hnd
    unfold sweep
    by_cases h1 : i.status ≠ PluginStatusRunning
    · rw [if_pos h1, ih st hnd']
      apply List.map_congr_left
      intro x _
      by_cases hx : i.id = x.id
      · rw [applyInsts_head cutoff u i rest x hx,
          applyInsts_not_mem cutoff u rest x (hx ▸ hni)]
        have hdm : demotes cutoff u i = false := by
          unfold demotes
          have hs : (i.status == PluginStatusRunning) = false := by
            simp only [beq_eq_false_iff_ne, ne_eq]
            exact h1
          rw [hs, Bool.false_and, Bool.false_and]
        rw [hdm, if_neg (by simp)]
      · rw [applyInsts_tail cutoff u i rest x hx]
    · rw [if_neg h1]
      have hrun : i.status = PluginStatusRunning := not_not.mp h1
      by_cases h2 : staleAt i cutoff = true
      · rw [if_pos h2]
        by_cases h3 : u i.id = true
        · rw [if_pos h3, ih _ hnd']
          have hdm : demotes cutoff u i = true := by
            unfold demotes
            rw [beq_iff_eq.mpr hrun, h2, h3]
            rfl
          show (UpdateInstance st (demote i)).instances.map _ = _
          unfold UpdateInstance
          rw [List.map_map]
          apply List.map_congr_left
          intro x _
          by_cases hx : i.id = x.id
          · have : (fun x => if x.id = (demote i).id then demote i else x) x = demote i := by
              simp only [demote]
              rw [if_pos (by exact hx.symm)]
            simp only [Function.comp_apply, this]
            rw [applyInsts_not_mem cutoff u rest (demote i) hni,
              applyInsts_head cutoff u i rest x hx, hdm, if_pos rfl]
          · have : (fun x => if x.id = (demote i).id then demote i else x) x = x := by
              simp only [demote]
              rw [if_neg (fun hc => hx (hc.symm))]
            simp only [Function.comp_apply, this]
            rw [applyInsts_tail cutoff u i rest x hx]
        · rw [if_neg h3, ih st hnd']
          apply List.map_congr_left
          intro x _
          by_cases hx : i.id = x.id
          · rw [applyInsts_head cutoff u i rest x hx,
              applyInsts_not_mem cutoff u rest x (hx ▸ hni)]
            have hdm : demotes cutoff u i = false := by
              unfold demotes
              rw [Bool.not_eq_true] at h3
              rw [h3, Bool.and_false]
            rw [hdm, if_neg (by simp)]
          · rw [applyInsts_tail cutoff u i rest x hx]
      · rw [if_neg h2, ih st hnd']
        apply List.map_congr_left
        intro x _
        by_cases hx : i.id = x.id
        · rw [applyInsts_head cutoff u i rest x hx,
            applyInsts_not_mem cutoff u rest x (hx ▸ hni)]
          have hdm : demotes cutoff u i = false := by
            unfold demotes
            rw [Bool.not_eq_true] at h2
            rw [h2, Bool.and_false, Bool.false_and]
          rw [hdm, if_neg (by simp)]
        · rw [applyInsts_tail cutoff u i rest x hx]

/-- Equality of gateway states componentwise. -/
theorem GatewayState.ext' (a b : GatewayState)
    (h1 : a.definitions = b.definitions) (h2 : a.instances = b.instances) :
    a = b := by
  cases a; cases b
  cases h1; cases h2
  rfl

/-- One completed `checkHeartbeats` run, as a pure function of the stored
rows: with `d` the nanoseconds the sweep's duration parse produced, every
stored row that is running and stale at cutoff `now - d` (and whose
persistence succeeds) is demoted to unhealthy; everything else is as it
was. -/
theorem checkHeartbeats_eq (cfg : SecurityConfig) (now : Int) (u : String → Bool)
    (st : GatewayState) (d : Int)
    (hd : (parseDuration (effectiveTimeout cfg.heartbeatTimeout)).getD 0 = d)
    (hnd : (st.instances.map (fun i => i.id)).Nodup) :
    checkHeartbeats cfg now true u st =
      { definitions := st.definitions,
        instances := st.instances.map (fun x =>
          if demotes (now - d) u x then demote x else x) } := by
  unfold checkHeartbeats
  rw [if_neg (by simp), hd]
  apply GatewayState.ext'
  · exact sweep_definitions (now - d) u st.instances st
  · rw [sweep_eq_map (now - d) u st.instances st hnd]
    apply List.map_congr_left
    intro x hx
    unfold applyInsts
    rw [find?_id_self st.instances hnd x hx]

/-! ## Claim C5 -/

/-- C5: on a sweep whose configured timeout parses to `d` nanoseconds, every
running Instance whose heartbeat is absent or strictly older than `now - d`
is demoted to unhealthy and persisted (when its persistence call succeeds);
every Instance that is not running — and every running fresh one, and every
one whose persistence call fails — is stored unchanged; one row's
persistence failure leaves the processing of all other rows intact (the
result is a pointwise map over the rows). -/
theorem liveness_sweep_characterization :
    ∀ (cfg : SecurityConfig) (now : Int) (u : String → Bool) (st : GatewayState)
      (d : Int),
      parseDuration (effectiveTimeout cfg.heartbeatTimeout) = some d →
      (st.instances.map (fun i => i.id)).Nodup →
      checkHeartbeats cfg now true u st =
        { definitions := st.definitions,
          instances := st.instances.map (fun x =>
            if (x.status == PluginStatusRunning) && staleAt x (now - d) && u x.id
            then demote x else x) } := by
  intro cfg now u st d hparse hnd
  exact checkHeartbeats_eq cfg now u st d (by rw [hparse]; rfl) hnd

/-- A sample stored row for sweep witnesses. -/
def instW (id : String) (status : String) (hb : Option Int) : PluginInstance :=
  { id := id, definitionId := "p", status := status, enabled := true,
    authToken := "tok", lastHeartbeat := hb, startedAt := 0, metadata := [] }

/-- Sweep witness gateway: a stale running row whose persistence will fail,
a never-heartbeated running row, and a stopped row. -/
def gwSweep : GatewayState :=
  { definitions := [],
    instances := [instW "s1" PluginStatusRunning (some 0),
                  instW "s2" PluginStatusRunning none,
                  instW "s3" PluginStatusStopped (some 0)] }

/-- Witness for C5: timeout "30s", now = 40s; the failing persistence on
"s1" does not keep "s2" from being demoted; "s3" stays stopped. -/
theorem liveness_sweep_witness :
    checkHeartbeats
      { enabled := false, allowedPlugins := [], pluginToken := "",
        heartbeatTimeout := "30s" }
      40000000000 true (fun s => s != "s1") gwSweep =
      { definitions := gwSweep.definitions,
        instances := gwSweep.instances.map (fun x =>
          if (x.status == PluginStatusRunning) &&
              staleAt x (40000000000 - 30000000000) && (fun s => s != "s1") x.id
          then demote x else x) } :=
  liveness_sweep_characterization
    { enabled := false, allowedPlugins := [], pluginToken := "",
      heartbeatTimeout := "30s" }
    40000000000 (fun s => s != "s1") gwSweep 30000000000 (by decide) (by decide)

/-! ## Claim C9 -/

/-- C9: a non-empty timeout string that fails to parse leaves the sweep
with a zero duration — `time.ParseDuration`'s error is discarded — so the
cutoff is `now` itself and every running Instance whose heartbeat is absent
or strictly before the sweep's current time (one heartbeated a nanosecond
earlier included) is demoted; only the empty string falls back to the 30s
default. -/
theorem sweep_unparsable_timeout_zero :
    ∀ (t : String), t ≠ "" → parseDuration t = none →
      effectiveTimeout t = t ∧
      effectiveTimeout "" = "30s" ∧
      parseDuration "30s" = some 30000000000 ∧
      (∀ (cfg : SecurityConfig) (now : Int) (u : String → Bool) (st : GatewayState),
        cfg.heartbeatTimeout = t →
        (st.instances.map (fun i => i.id)).Nodup →
        checkHeartbeats cfg now true u st =
          { definitions := st.definitions,
            instances := st.instances.map (fun x =>
              if (x.status == PluginStatusRunning) && staleAt x now && u x.id
              then demote x else x) }) := by
  intro t ht hparse
  refine ⟨if_neg ht, rfl, by decide, ?_⟩
  intro cfg now u st hcfg hnd
  have hd : (parseDuration (effectiveTimeout cfg.heartbeatTimeout)).getD 0 = 0 := by
    rw [hcfg]
    simp only [effectiveTimeout, if_neg ht, hparse, Option.getD_none]
  have := checkHeartbeats_eq cfg now u st 0 hd hnd
  rw [this]
  simp only [sub_zero]
  rfl

/-- Witness for C9 at the unparsable timeout "abc": a running row that
heartbeated at 4 with the sweep at now = 5 is demoted. -/
theorem sweep_unparsable_timeout_witness :
    checkHeartbeats
      { enabled := false, allowedPlugins := [], pluginToken := "",
        heartbeatTimeout := "abc" }
      5 true (fun _ => true)
      { definitions := [], instances := [instW "s1" PluginStatusRunning (some 4)] } =
      { definitions := [],
        instances := [instW "s1" PluginStatusRunning (some 4)].map (fun x =>
          if (x.status == PluginStatusRunning) && staleAt x 5 && (fun _ => true) x.id
          then demote x else x) } :=
  (sweep_unparsable_timeout_zero "abc" (by decide) (by decide)).2.2.2
    { enabled := false, allowedPlugins := [], pluginToken := "",
      heartbeatTimeout := "abc" }
    5 (fun _ => true)
    { definitions := [], instances := [instW "s1" PluginStatusRunning (some 4)] }
    rfl (by decide)

/-! ## Claim C8 -/

/-- C8: `Plugin.Start` performs exactly one handshake call; a transport
failure or a rejected response (`accepted=false`) returns an error with the
agent still Disconnected — no background loop spawned, no credentials
stored in these paths beyond the freshly zeroed client; on acceptance the
issued session id and auth token are stored, the heartbeat loop is spawned,
and the event loop is spawned exactly when an event handler is
configured. -/
theorem plugin_start_behavior :
    ∀ (hasHandler : Bool) (outcome : HandshakeOutcome) (ag : AgentState),
      Disconnected ag →
      (PluginStart hasHandler outcome ag).handshakeCalls = 1 ∧
      (∀ msg, outcome = .transportError msg →
        (PluginStart hasHandler outcome ag).err = some msg ∧
        Disconnected (PluginStart hasHandler outcome ag).agent ∧
        (PluginStart hasHandler outcome ag).agent.sessionID = "" ∧
        (PluginStart hasHandler outcome ag).agent.authToken = "") ∧
      (∀ resp, outcome = .reply resp → resp.accepted = false →
        (PluginStart hasHandler outcome ag).err =
          some ("handshake rejected: " ++ resp.error) ∧
        Disconnected (PluginStart hasHandler outcome ag).agent ∧
        (PluginStart hasHandler outcome ag).agent.sessionID = "" ∧
        (PluginStart hasHandler outcome ag).agent.authToken = "") ∧
      (∀ resp, outcome = .reply resp → resp.accepted = true →
        (PluginStart hasHandler outcome ag).err = none ∧
        (PluginStart hasHandler outcome ag).agent.sessionID = resp.sessionId ∧
        (PluginStart hasHandler outcome ag).agent.authToken = resp.authToken ∧
        (PluginStart hasHandler outcome ag).agent.heartbeatLoopRunning = true ∧
        (PluginStart hasHandler outcome ag).agent.eventLoopRunning = hasHandler) := by
  intro hasHandler outcome ag hdis
  obtain ⟨hh, he⟩ := hdis
  refine ⟨?_, ?_, ?_, ?_⟩
  · rcases outcome with msg | resp
    · rfl
    · by_cases hr : resp.accepted = false
      · simp only [PluginStart, if_pos hr]
      · simp only [PluginStart, if_neg hr]
  · intro msg h
    subst h
    simp [PluginStart, Disconnected, hh, he]
  · intro resp h hr
    subst h
    simp [PluginStart, hr, Disconnected, hh, he]
  · intro resp h hr
    subst h
    simp [PluginStart, hr, Disconnected]

/-- Witness for C8: an accepted handshake response on a fresh agent with no
event handler configured. -/
theorem plugin_start_behavior_witness :
    (PluginStart false (.reply
      { accepted := true, sessionId := "sid-1", coreVersion := "1.0.0",
        config := [], error := "", authToken := "at-1" }) agentInit).err = none ∧
    (PluginStart false (.reply
      { accepted := true, sessionId := "sid-1", coreVersion := "1.0.0",
        config := [], error := "", authToken := "at-1" }) agentInit).agent.sessionID =
      "sid-1" ∧
    (PluginStart false (.reply
      { accepted := true, sessionId := "sid-1", coreVersion := "1.0.0",
        config := [], error := "", authToken := "at-1" }) agentInit).agent.authToken =
      "at-1" ∧
    (PluginStart false (.reply
      { accepted := true, sessionId := "sid-1", coreVersion := "1.0.0",
        config := [], error := "", authToken := "at-1" }) agentInit).agent.heartbeatLoopRunning =
      true ∧
    (PluginStart false (.reply
      { accepted := true, sessionId := "sid-1", coreVersion := "1.0.0",
        config := [], error := "", authToken := "at-1" }) agentInit).agent.eventLoopRunning =
      false :=
  (plugin_start_behavior false (.reply
    { accepted := true, sessionId := "sid-1", coreVersion := "1.0.0",
      config := [], error := "", authToken := "at-1" }) agentInit
    ⟨rfl, rfl⟩).2.2.2
    { accepted := true, sessionId := "sid-1", coreVersion := "1.0.0",
      config := [], error := "", authToken := "at-1" } rfl rfl

end Milpa
